import Mathlib

/-!
Verification development for the bevy_ecs_net TCP transport core.

Shallow embedding of `src/component.rs` (the `NetworkNode` abstraction) and
`src/tcp.rs` (server accept loop, connection adoption, per-connection
receive loop, client connect task and send loop).

Shared mutable state (the `Arc<AtomicBool>` cancellation flag and the
channel endpoints cloned into background tasks) is modelled with explicit
identifiers into a `World` store, so that two nodes sharing a flag or a
channel is the literal equality of their identifiers.  Background loops are
modelled as functions over finite environment traces: each trace element
records what the environment (the OS socket, the channel, the shared flag)
returned at one suspension point of the loop, and the function computes the
observable outputs of the loop (packets forwarded, errors reported, bytes
written, exit cause) on that trace.
-/

/-- Socket address. The code uses `std::net::SocketAddr`; only identity and
field access matter here, so an address is an abstract ip and port pair. -/
structure SocketAddr where
  ip : Nat
  port : Nat
deriving DecidableEq

/-- `NetworkProtocol` from `src/component.rs`. -/
inductive NetworkProtocol where
  | UDP
  | TCP
  | SSL
  | WS
  | WSS
deriving DecidableEq

/-- Modelled from the spec: `NetworkRawPacket` lives in `src/network.rs`,
which is not under `src/`; per the spec a raw packet is an immutable byte
buffer plus an optional socket address (destination on send, source on
receive).  Both uses in `src/component.rs` and `src/tcp.rs` construct it
with a `socket` and a `bytes` field. -/
structure NetworkRawPacket where
  socket : Option SocketAddr
  bytes : List Nat
deriving DecidableEq

/-- Modelled from the spec: `NetworkError` lives in `src/error.rs`, which is
not under `src/`; the spec says the source carries an unstructured string
plus two broad kinds (connection error, generic error), and `src/tcp.rs`
additionally constructs `NetworkError::SendError`. -/
inductive NetworkError where
  | Error (msg : String)
  | Connection (msg : String)
  | SendError
deriving DecidableEq

/-- Modelled from the spec: `NetworkEvent` lives in `src/network.rs`, which
is not under `src/`; `src/tcp.rs` emits `NetworkEvent::Connected(entity)`
carrying the new per-connection node's identity (its entity id). -/
inductive NetworkEvent where
  | Connected (entity : Nat)
deriving DecidableEq

/-- Modelled from the spec: `AsyncChannel` is defined at the crate root,
not under `src/`.  Per the spec it is a FIFO conduit whose queue both sides
share, with a deterministic closed signal once either end is dropped. -/
structure Channel (α : Type) where
  queue : List α
  closed : Bool
deriving DecidableEq

/-- A fresh, open, empty channel, as produced by `AsyncChannel::new()`. -/
def Channel.new (α : Type) : Channel α := { queue := [], closed := false }

/-- Non-blocking `try_send`: fails deterministically (returns `none`, the
model of the `expect` panic) when the channel is closed, otherwise appends
the message to the FIFO queue. -/
def Channel.trySend {α : Type} (c : Channel α) (a : α) : Option (Channel α) :=
  if c.closed then none else some { c with queue := c.queue ++ [a] }

/-- The store of shared state: cancellation flags (one per `Arc<AtomicBool>`
allocation), raw-packet channels, error channels, and the entity id
allocator of the ECS `Commands`. -/
structure World where
  flags : List Bool
  packetChannels : List (Channel NetworkRawPacket)
  errorChannels : List (Channel NetworkError)
  nextEntity : Nat
deriving DecidableEq

/-- Read a shared cancellation flag. -/
def World.readFlag (w : World) (i : Nat) : Bool := w.flags.getD i false

/-- `AtomicBool::store` on a shared cancellation flag. -/
def World.writeFlag (w : World) (i : Nat) (b : Bool) : World :=
  { w with flags := w.flags.set i b }

/-- `NetworkNode` from `src/component.rs`.  Channels and the cancellation
flag are held by identifier (an index into the corresponding `World`
store) because the code shares them (channel endpoint clones, `Arc`
clones) with background tasks.  `src/component.rs` declares
`local_addr: SocketAddr`, but the `NetworkNode` that `src/tcp.rs` imports
from `crate::network_manager` (a file not under `src/`) is constructed with
`None` as the local address in `manage_tcp_client` and
`handle_new_connection`, so the common structure is modelled with an
optional local address. -/
structure NetworkNode where
  recv_message_channel : Nat
  send_message_channel : Nat
  error_channel : Nat
  cancel_flag : Nat
  running : Bool
  local_addr : Option SocketAddr
  peer_addr : Option SocketAddr
  max_packet_size : Nat
  auto_start : Bool
  protocol : NetworkProtocol
deriving DecidableEq

/-- `NetworkNode::new`: three fresh channels, a fresh cleared cancellation
flag, `running = false`, `max_packet_size = 65535`, `auto_start = true`.
Fresh allocations are appended to the world stores; the receive channel is
allocated before the send channel, mirroring field order in the source. -/
def NetworkNode.new (protocol : NetworkProtocol) (local_addr : Option SocketAddr)
    (peer_addr : Option SocketAddr) (w : World) : NetworkNode × World :=
  (⟨w.packetChannels.length, w.packetChannels.length + 1,
    w.errorChannels.length, w.flags.length,
    false, local_addr, peer_addr, 65535, true, protocol⟩,
   { w with
      flags := w.flags ++ [false],
      packetChannels :=
        w.packetChannels ++ [Channel.new NetworkRawPacket, Channel.new NetworkRawPacket],
      errorChannels := w.errorChannels ++ [Channel.new NetworkError] })

/-- `NetworkNode::start`: store `false` into the shared cancellation flag,
set `running` to `true`. -/
def NetworkNode.start (n : NetworkNode) (w : World) : NetworkNode × World :=
  ({ n with running := true }, w.writeFlag n.cancel_flag false)

/-- `NetworkNode::stop`: store `true` into the shared cancellation flag,
set `running` to `false`. -/
def NetworkNode.stop (n : NetworkNode) (w : World) : NetworkNode × World :=
  ({ n with running := false }, w.writeFlag n.cancel_flag true)

/-- `NetworkNode::send`: `try_send` on the send-message channel of a packet
whose destination is the node's peer address and whose payload is the given
bytes.  `none` models the `expect("Message channel has closed.")` panic:
a deterministic fatal failure, never a hang, never a silent drop. -/
def NetworkNode.send (n : NetworkNode) (w : World) (bytes : List Nat) : Option World :=
  match w.packetChannels.get? n.send_message_channel with
  | none => none
  | some c =>
    match c.trySend ⟨n.peer_addr, bytes⟩ with
    | none => none
    | some c' => some { w with packetChannels := w.packetChannels.set n.send_message_channel c' }

/-- A connected TCP stream as the loops observe it: its local address (the
code calls `stream.local_addr().unwrap()`) and the result of
`stream.peer_addr().ok()`. -/
structure TcpStream where
  local_addr : SocketAddr
  peer_addr : Option SocketAddr
deriving DecidableEq

/-- Environment result of one `stream.read(&mut buffer)` call in the
receive loop: either the bytes the socket makes available (the read
returns the first `max_packet_size` of them, `[]` meaning a zero-byte
read, i.e. peer closed) or an I/O error. -/
inductive ReadResult where
  | ok (data : List Nat)
  | err (msg : String)
deriving DecidableEq

/-- Why a receive loop stopped consuming its trace. -/
inductive RecvExit where
  | cancelled
  | peerClosed
  | readError
  | outOfTrace
deriving DecidableEq

/-- Observable outputs of one run of the receive loop. -/
structure RecvOut where
  packets : List NetworkRawPacket
  errors : List NetworkError
  exit : RecvExit
deriving DecidableEq

/-- `TcpServerNode::recv_loop` over an environment trace.  Each trace
element is one outer iteration: the value the shared cancellation flag
shows at the top-of-loop check, and the result the socket read would
return.  A set flag exits before reading; a zero-byte read exits with no
packet and no error; a positive read forwards exactly one packet whose
bytes are the bytes read and whose address is `stream.local_addr()`; a
read error forwards one error and exits. -/
def recv_loop (stream : TcpStream) (max_packet_size : Nat) :
    List (Bool × ReadResult) → RecvOut
  | [] => ⟨[], [], .outOfTrace⟩
  | (flag, r) :: rest =>
    if flag then ⟨[], [], .cancelled⟩
    else
      match r with
      | .ok data =>
        if (data.take max_packet_size).isEmpty then ⟨[], [], .peerClosed⟩
        else
          ⟨⟨some stream.local_addr, data.take max_packet_size⟩ ::
             (recv_loop stream max_packet_size rest).packets,
           (recv_loop stream max_packet_size rest).errors,
           (recv_loop stream max_packet_size rest).exit⟩
      | .err e => ⟨[], [NetworkError.Error e], .readError⟩

/-- One suspension-point event observed by `TcpClientNode::send_loop`:
a top-of-outer-loop read of the shared cancellation flag, or the result of
one `message_receiver.recv().await` on the node's send channel.  The kanal
async `recv()` awaits until a message arrives (`deliver`, paired with the
success of the following `write_all`) or the channel is closed (`closed`);
only after a `closed` does control return to the outer loop and its flag
check. -/
inductive SendEvent where
  | check (flag : Bool)
  | deliver (p : NetworkRawPacket) (writeOk : Bool)
  | closed
deriving DecidableEq

/-- Whether the send loop is at the outer flag check or inside the inner
`while let Ok(message) = recv().await` loop. -/
inductive SendMode where
  | outer
  | inner
deriving DecidableEq

/-- Observable outputs of one run of the send loop: the packets written to
the socket tagged with the index of their trace event, the errors reported,
and whether the loop exited via its cancellation check. -/
structure SendOut where
  writes : List (Nat × NetworkRawPacket)
  errors : List NetworkError
  halted : Bool
deriving DecidableEq

/-- `TcpClientNode::send_loop` over an environment trace, indexing events
from `i`.  In outer mode the loop consumes a flag check: `true` breaks,
`false` enters the inner receive loop.  In inner mode a delivered message
is written to the socket (`write_all`); a failed write reports one
`SendError` and the loop continues; a closed channel returns to the outer
mode.  `none` marks a trace that does not fit the loop's control shape
(a delivery at an outer position or a flag check at an inner one). -/
def sendLoopAux (i : Nat) : SendMode → List SendEvent → Option SendOut
  | _, [] => some ⟨[], [], false⟩
  | .outer, .check b :: rest =>
    if b then some ⟨[], [], true⟩ else sendLoopAux (i + 1) .inner rest
  | .outer, .deliver _ _ :: _ => none
  | .outer, .closed :: _ => none
  | .inner, .deliver p ok :: rest =>
    match sendLoopAux (i + 1) .inner rest with
    | none => none
    | some o =>
      some ⟨(i, p) :: o.writes,
            (if ok then o.errors else NetworkError.SendError :: o.errors), o.halted⟩
  | .inner, .closed :: rest => sendLoopAux (i + 1) .outer rest
  | .inner, .check _ :: _ => none

/-- `TcpClientNode::send_loop` run from its entry point: the first event is
the first outer-loop cancellation check. -/
def send_loop (t : List SendEvent) : Option SendOut :=
  sendLoopAux 0 .outer t

/-- The packets a trace delivers from the send channel, in delivery order
(which is enqueue order, the channel being FIFO). -/
def deliveredPackets (t : List SendEvent) : List NetworkRawPacket :=
  t.filterMap fun e =>
    match e with
    | .deliver p _ => some p
    | _ => none

/-- The packets a trace delivers whose write fails. -/
def failedDeliveries (t : List SendEvent) : List NetworkRawPacket :=
  t.filterMap fun e =>
    match e with
    | .deliver p false => some p
    | _ => none

/-- True when every flag check at trace index `k` or later observes `true`:
the environment in which `stop()` was called before event `k` and the flag
stays set. -/
def checksTrueFrom (k : Nat) (t : List SendEvent) : Bool :=
  (t.drop k).all fun e =>
    match e with
    | .check b => b
    | _ => true

/-- True when every receive-loop iteration at index `k` or later observes a
set cancellation flag. -/
def recvFlagsTrueFrom (k : Nat) (t : List (Bool × ReadResult)) : Bool :=
  (t.drop k).all fun e => e.1

/-- The packets a send-loop run writes strictly after trace index `k`. -/
def writesAfter (k : Nat) (o : SendOut) : List NetworkRawPacket :=
  o.writes.filterMap fun w => if k < w.1 then some w.2 else none

/-- One `incoming.next().await` result observed by the server accept loop:
a successfully accepted connection (`Some(Ok(stream))`), an accept error
(`Some(Err(_))`, which merely exits the inner `while let` and is retried by
the outer `loop`), or stream exhaustion (`None`, likewise retried). -/
inductive AcceptEvent where
  | conn (s : TcpStream)
  | connErr
  | ended
deriving DecidableEq

/-- The accept loop spawned by `TcpServerNode::start`.  The `flags`
argument is the value the node's shared cancellation flag would show at
each iteration; the loop body contains no load of that flag, so the
argument is never consumed.  Every successfully accepted connection is
forwarded into the internal new-connection queue; nothing in the trace
makes the loop exit. -/
def accept_loop : List Bool → List AcceptEvent → List TcpStream
  | _, [] => []
  | flags, .conn s :: rest => s :: accept_loop flags rest
  | flags, .connErr :: rest => accept_loop flags rest
  | flags, .ended :: rest => accept_loop flags rest

/-- The arguments `handle_new_connection` passes to the one receive loop it
spawns for an adopted connection: the stream, the message sender, the error
sender, the cancellation flag, and the hard-coded `65_507` buffer size. -/
structure SpawnedRecvLoop where
  stream : TcpStream
  message_sender : Nat
  error_sender : Nat
  cancel_flag : Nat
  max_packet_size : Nat
deriving DecidableEq

/-- The `handle_new_connection` system of `src/tcp.rs`, for one server
entity, applied to the list of connections drained (in arrival order) from
the server's internal new-connection queue.  `net_node` is the server
entity's `NetworkNode`.  For each drained stream it clones the server
node's cancellation flag, receive-channel sender and error-channel sender,
spawns a fresh child `NetworkNode` (peer address
`tcp_stream.peer_addr().ok()`) on a fresh child entity, spawns one receive
loop with the cloned (server) endpoints and buffer size `65_507`, and emits
one `Connected` event carrying the child entity. -/
def handle_new_connection (net_node : NetworkNode) (w : World) :
    List TcpStream →
      List (Nat × NetworkNode) × List SpawnedRecvLoop × List NetworkEvent × World
  | [] => ([], [], [], w)
  | s :: rest =>
    let child := NetworkNode.new NetworkProtocol.TCP none s.peer_addr w
    let childEntity := child.2.nextEntity
    let w2 := { child.2 with nextEntity := child.2.nextEntity + 1 }
    let spawned : SpawnedRecvLoop :=
      ⟨s, net_node.recv_message_channel, net_node.error_channel, net_node.cancel_flag, 65507⟩
    let out := handle_new_connection net_node w2 rest
    ((childEntity, child.1) :: out.1, spawned :: out.2.1,
     NetworkEvent.Connected childEntity :: out.2.2.1, out.2.2.2)

/-- Observable outputs of the task `TcpClientNode::start` spawns: whether
the send loop was entered, the socket writes and errors it produced, and
the `Connected` events emitted for this client (the client path emits
none). -/
structure ClientStartOut where
  sendLoopRan : Bool
  writes : List (Nat × NetworkRawPacket)
  errors : List NetworkError
  events : List NetworkEvent
deriving DecidableEq

/-- The task spawned by `TcpClientNode::start`: one `TcpStream::connect`
attempt.  On success it runs the send loop on the connected stream; on
failure it reports exactly one `Connection` error on the node's error
channel and does nothing else — no retry, no send loop, no event. -/
def tcp_client_start (connectResult : Except String TcpStream)
    (t : List SendEvent) : Option ClientStartOut :=
  match connectResult with
  | .ok _ =>
    match send_loop t with
    | none => none
    | some o => some ⟨true, o.writes, o.errors, []⟩
  | .error e => some ⟨false, [], [NetworkError.Connection e], []⟩

/-- The child nodes (with their entities) created by one adoption pass. -/
def adoptedChildren (net : NetworkNode) (w : World) (streams : List TcpStream) :
    List (Nat × NetworkNode) :=
  (handle_new_connection net w streams).1

/-- The receive loops spawned by one adoption pass. -/
def adoptedLoops (net : NetworkNode) (w : World) (streams : List TcpStream) :
    List SpawnedRecvLoop :=
  (handle_new_connection net w streams).2.1

/-- The events emitted by one adoption pass. -/
def adoptedEvents (net : NetworkNode) (w : World) (streams : List TcpStream) :
    List NetworkEvent :=
  (handle_new_connection net w streams).2.2.1

/-- The world after one adoption pass. -/
def adoptedWorld (net : NetworkNode) (w : World) (streams : List TcpStream) : World :=
  (handle_new_connection net w streams).2.2.2

/-- The child node the adoption pass builds for the `i`-th drained stream
when started from world `w`: the `i`-th fresh entity and a node with the
`i`-th batch of fresh channel and flag identifiers. -/
def adoptedChildAt (w : World) (i : Nat) (s : TcpStream) : Nat × NetworkNode :=
  (w.nextEntity + i,
   ⟨w.packetChannels.length + 2 * i, w.packetChannels.length + 2 * i + 1,
    w.errorChannels.length + i, w.flags.length + i,
    false, none, s.peer_addr, 65535, true, NetworkProtocol.TCP⟩)

/-- Claim C1 as stated: each drained connection yields exactly one child
node whose peer address is the accepted socket's remote address, exactly
one receive loop delivering into that child node's receive channel, and
exactly one connected event carrying the child's identity. -/
def ClaimC1Prop : Prop :=
  ∀ (net : NetworkNode) (w : World) (streams : List TcpStream),
    (adoptedChildren net w streams).length = streams.length ∧
    (adoptedLoops net w streams).length = streams.length ∧
    (adoptedEvents net w streams).length = streams.length ∧
    ∀ i, i < streams.length →
      ((adoptedChildren net w streams).get? i).map (fun c => c.2.peer_addr)
        = (streams.get? i).map TcpStream.peer_addr ∧
      ((adoptedLoops net w streams).get? i).map SpawnedRecvLoop.message_sender
        = ((adoptedChildren net w streams).get? i).map (fun c => c.2.recv_message_channel) ∧
      (adoptedEvents net w streams).get? i
        = ((adoptedChildren net w streams).get? i).map (fun c => NetworkEvent.Connected c.1)

/-- Claim C2 as stated: with the cancellation flag set from some point on,
the receive loop forwards no packet beyond those of the iterations before
that point, and the send loop issues no write beyond the event after that
point (the in-flight call). -/
def ClaimC2Prop : Prop :=
  (∀ (stream : TcpStream) (max : Nat) (t : List (Bool × ReadResult)) (k : Nat),
    recvFlagsTrueFrom k t = true →
    (recv_loop stream max t).packets = (recv_loop stream max (t.take k)).packets) ∧
  (∀ (t : List SendEvent) (o : SendOut) (k : Nat),
    send_loop t = some o → checksTrueFrom k t = true → writesAfter (k + 1) o = [])

/-! ## Helper lemmas -/

lemma get?_set_ne {α : Type} :
    ∀ (l : List α) (i j : Nat) (b : α), i ≠ j → (l.set i b).get? j = l.get? j := by
  intro l
  induction l with
  | nil => intro i j b _; simp
  | cons a l ih =>
    intro i j b hij
    cases i with
    | zero =>
      cases j with
      | zero => exact absurd rfl hij
      | succ j => simp [List.set]
    | succ i =>
      cases j with
      | zero => simp [List.set]
      | succ j => simpa [List.set] using ih i j b (fun h => hij (by rw [h]))

lemma get?_set_self {α : Type} :
    ∀ (l : List α) (i : Nat) (b : α), i < l.length → (l.set i b).get? i = some b := by
  intro l
  induction l with
  | nil => intro i b h; simp at h
  | cons a l ih =>
    intro i b h
    cases i with
    | zero => simp [List.set]
    | succ i => simpa [List.set] using ih i b (by simpa using h)

lemma getD_set_self {α : Type} :
    ∀ (l : List α) (i : Nat) (b d : α), i < l.length → (l.set i b).getD i d = b := by
  intro l
  induction l with
  | nil => intro i b d h; simp at h
  | cons a l ih =>
    intro i b d h
    cases i with
    | zero => simp [List.set]
    | succ i => simpa [List.set, List.getD] using ih i b d (by simpa using h)

lemma recv_loop_packets_take :
    ∀ (t : List (Bool × ReadResult)) (k : Nat) (stream : TcpStream) (max : Nat),
      recvFlagsTrueFrom k t = true →
      (recv_loop stream max t).packets = (recv_loop stream max (t.take k)).packets := by
  intro t
  induction t with
  | nil => intro k s m _; simp
  | cons e rest ih =>
    intro k s m h
    obtain ⟨f, r⟩ := e
    cases k with
    | zero =>
      have hf : f = true := by
        simp [recvFlagsTrueFrom] at h
        exact h.1
      simp [recv_loop, hf]
    | succ k =>
      have h' : recvFlagsTrueFrom k rest = true := by
        simpa [recvFlagsTrueFrom] using h
      cases f with
      | true => simp [recv_loop]
      | false =>
        cases r with
        | ok data =>
          by_cases hb : (data.take m).isEmpty
          · simp [recv_loop, hb]
          · simp [recv_loop, hb, ih k s m h']
        | err e => simp [recv_loop]

lemma accept_loop_spec (flags : List Bool) (events : List AcceptEvent) :
    accept_loop flags events =
      events.filterMap (fun e => match e with | .conn s => some s | _ => none) := by
  induction events with
  | nil => rfl
  | cons e rest ih => cases e <;> simp [accept_loop, ih]

/-! ## Claim theorems -/

/-- C3 (code bug exhibit): on a connection whose local address is 7:4000
and whose remote peer is 9:5555, a single positive read of bytes 1,2,3
makes the receive loop forward exactly one packet whose payload is exactly
those bytes, but the packet is tagged with the stream's local address,
which differs from the remote peer (source) address the claim requires. -/
theorem recv_loop_tags_local_addr :
    recv_loop ⟨⟨7, 4000⟩, some ⟨9, 5555⟩⟩ 65507 [(false, ReadResult.ok [1, 2, 3])] =
      ⟨[⟨some ⟨7, 4000⟩, [1, 2, 3]⟩], [], RecvExit.outOfTrace⟩ ∧
    some (TcpStream.local_addr ⟨⟨7, 4000⟩, some ⟨9, 5555⟩⟩)
      ≠ TcpStream.peer_addr ⟨⟨7, 4000⟩, some ⟨9, 5555⟩⟩ := by
  exact ⟨by decide, by decide⟩

/-- C5: the accept loop spawned by `TcpServerNode::start` never reads the
node's cancellation flag: its output is the same under any two flag
histories, and it forwards every successfully accepted connection of the
whole trace into the new-connection queue — no trace element, in
particular no setting of the flag, makes it exit early. -/
theorem accept_loop_ignores_cancel_flag (flags flags' : List Bool)
    (events : List AcceptEvent) :
    accept_loop flags events = accept_loop flags' events ∧
    accept_loop flags events =
      events.filterMap (fun e => match e with | .conn s => some s | _ => none) := by
  refine ⟨?_, accept_loop_spec flags events⟩
  rw [accept_loop_spec, accept_loop_spec]

/-- C7: when the receive loop survives a prefix of its trace and then a
read returns zero bytes (peer closed), the loop terminates exactly there,
with no packet and no error beyond those of the prefix, whatever the rest
of the trace holds. -/
theorem recv_loop_zero_read_exits (stream : TcpStream) (max : Nat)
    (pre rest : List (Bool × ReadResult))
    (h : (recv_loop stream max pre).exit = RecvExit.outOfTrace) :
    recv_loop stream max (pre ++ (false, ReadResult.ok []) :: rest) =
      ⟨(recv_loop stream max pre).packets, (recv_loop stream max pre).errors,
       RecvExit.peerClosed⟩ := by
  induction pre with
  | nil => simp [recv_loop]
  | cons e pre ih =>
    obtain ⟨f, r⟩ := e
    cases f with
    | true => simp [recv_loop] at h
    | false =>
      cases r with
      | ok data =>
        by_cases hb : (data.take max).isEmpty
        · simp [recv_loop, hb] at h
        · have h' : (recv_loop stream max pre).exit = RecvExit.outOfTrace := by
            simpa [recv_loop, hb] using h
          simp [recv_loop, hb, ih h']
      | err e => simp [recv_loop] at h

/-- C7 witness: a run whose first iteration reads one byte and whose second
read returns zero bytes stops at the zero read with exactly the one packet
and no error. -/
theorem recv_loop_zero_read_exits_witness :
    (recv_loop ⟨⟨1, 2⟩, none⟩ 8 [(false, ReadResult.ok [5])]).exit = RecvExit.outOfTrace ∧
    recv_loop ⟨⟨1, 2⟩, none⟩ 8
        ([(false, ReadResult.ok [5])] ++ (false, ReadResult.ok []) :: [(false, ReadResult.ok [6])]) =
      ⟨(recv_loop ⟨⟨1, 2⟩, none⟩ 8 [(false, ReadResult.ok [5])]).packets,
       (recv_loop ⟨⟨1, 2⟩, none⟩ 8 [(false, ReadResult.ok [5])]).errors,
       RecvExit.peerClosed⟩ :=
  ⟨by decide,
   recv_loop_zero_read_exits ⟨⟨1, 2⟩, none⟩ 8 [(false, ReadResult.ok [5])]
     [(false, ReadResult.ok [6])] (by decide)⟩

/-- C8: when the connect attempt of the task spawned by
`TcpClientNode::start` fails, the task reports exactly one connection
error on the node's error channel, never enters the send loop, performs no
retry (the task makes a single connect attempt by construction), and emits
zero connected events. -/
theorem tcp_client_start_connect_failure (e : String) (t : List SendEvent) :
    tcp_client_start (Except.error e) t =
      some ⟨false, [], [NetworkError.Connection e], []⟩ := rfl

lemma sendLoopAux_writes_errors :
    ∀ (t : List SendEvent) (i : Nat) (mode : SendMode) (o : SendOut),
      sendLoopAux i mode t = some o → o.halted = false →
      o.writes.map Prod.snd = deliveredPackets t ∧
      o.errors = (failedDeliveries t).map (fun _ => NetworkError.SendError) := by
  intro t
  induction t with
  | nil =>
    intro i mode o h hh
    cases mode <;> simp [sendLoopAux] at h <;>
      simp [← h, deliveredPackets, failedDeliveries]
  | cons e rest ih =>
    intro i mode o h hh
    cases mode with
    | outer =>
      cases e with
      | check b =>
        cases b with
        | true =>
          simp [sendLoopAux] at h
          rw [← h] at hh
          simp at hh
        | false =>
          have := ih (i + 1) .inner o (by simpa [sendLoopAux] using h) hh
          simpa [deliveredPackets, failedDeliveries] using this
      | deliver p ok => simp [sendLoopAux] at h
      | closed => simp [sendLoopAux] at h
    | inner =>
      cases e with
      | check b => simp [sendLoopAux] at h
      | deliver p ok =>
        cases hrec : sendLoopAux (i + 1) SendMode.inner rest with
        | none => rw [sendLoopAux, hrec] at h; simp at h
        | some o' =>
          rw [sendLoopAux, hrec] at h
          simp at h
          rw [← h] at hh ⊢
          simp at hh
          have := ih (i + 1) .inner o' hrec hh
          cases ok with
          | true => simpa [deliveredPackets, failedDeliveries] using this
          | false => simpa [deliveredPackets, failedDeliveries] using this
      | closed =>
        have := ih (i + 1) .outer o (by simpa [sendLoopAux] using h) hh
        simpa [deliveredPackets, failedDeliveries] using this

/-- C2 as stated is false on the code: in a send-loop run whose flag checks
all read true from event 1 on (stop was called right after the loop
started), packets delivered later on the still-open send channel are
nevertheless written, well past the one in-flight call. -/
theorem stop_send_loop_counterexample : ¬ClaimC2Prop := by
  intro h
  have h2 := h.2
    [SendEvent.check false, SendEvent.deliver ⟨none, [1]⟩ true,
     SendEvent.deliver ⟨none, [2]⟩ true, SendEvent.deliver ⟨none, [3]⟩ true,
     SendEvent.deliver ⟨none, [4]⟩ true, SendEvent.closed, SendEvent.check true]
    ⟨[(1, ⟨none, [1]⟩), (2, ⟨none, [2]⟩), (3, ⟨none, [3]⟩), (4, ⟨none, [4]⟩)], [], true⟩
    1 (by decide) (by decide)
  exact absurd h2 (by decide)

/-- C2 amended: after stop() the receive loop delivers no packet beyond
those of the iterations before the flag became set, but the send loop
re-checks the cancellation flag only after a receive on the send channel
fails (channel closed): while it runs it writes every packet the channel
delivers, including packets delivered after stop(). -/
theorem stop_quiesces_recv_not_send :
    (∀ (stream : TcpStream) (max : Nat) (t : List (Bool × ReadResult)) (k : Nat),
      recvFlagsTrueFrom k t = true →
      (recv_loop stream max t).packets = (recv_loop stream max (t.take k)).packets) ∧
    (∀ (t : List SendEvent) (o : SendOut),
      send_loop t = some o → o.halted = false →
      o.writes.map Prod.snd = deliveredPackets t) := by
  constructor
  · exact fun s m t k h => recv_loop_packets_take t k s m h
  · intro t o h hh
    exact (sendLoopAux_writes_errors t 0 .outer o h hh).1

/-- C2 witness: a receive trace cancelled from iteration 1 on yields the
packets of its first iteration only; a live send-loop run writes exactly
what the channel delivered. -/
theorem stop_quiesces_recv_not_send_witness :
    (recv_loop ⟨⟨1, 2⟩, none⟩ 8 [(false, ReadResult.ok [5]), (true, ReadResult.ok [6])]).packets
      = (recv_loop ⟨⟨1, 2⟩, none⟩ 8
          ([(false, ReadResult.ok [5]), (true, ReadResult.ok [6])].take 1)).packets ∧
    (SendOut.mk [(1, ⟨none, [9]⟩)] [] false).writes.map Prod.snd
      = deliveredPackets [SendEvent.check false, SendEvent.deliver ⟨none, [9]⟩ true] :=
  ⟨stop_quiesces_recv_not_send.1 ⟨⟨1, 2⟩, none⟩ 8
     [(false, ReadResult.ok [5]), (true, ReadResult.ok [6])] 1 (by decide),
   stop_quiesces_recv_not_send.2 [SendEvent.check false, SendEvent.deliver ⟨none, [9]⟩ true]
     ⟨[(1, ⟨none, [9]⟩)], [], false⟩ (by decide) rfl⟩

/-- C6: a live send-loop run issues one `write_all` per packet the channel
delivers, in delivery (enqueue) order — a failed write does not stop the
processing of later packets — and reports exactly one send error per
failed write, in order. -/
theorem send_loop_order_and_errors (t : List SendEvent) (o : SendOut)
    (h : send_loop t = some o) (hrun : o.halted = false) :
    o.writes.map Prod.snd = deliveredPackets t ∧
    o.errors = (failedDeliveries t).map (fun _ => NetworkError.SendError) :=
  sendLoopAux_writes_errors t 0 .outer o h hrun

/-- C6 witness: with three packets delivered and the middle write failing,
all three writes are issued in order and exactly one send error is
reported. -/
theorem send_loop_order_and_errors_witness :
    (SendOut.mk [(1, ⟨none, [1]⟩), (2, ⟨none, [2]⟩), (3, ⟨none, [3]⟩)]
        [NetworkError.SendError] false).writes.map Prod.snd
      = deliveredPackets
          [SendEvent.check false, SendEvent.deliver ⟨none, [1]⟩ true,
           SendEvent.deliver ⟨none, [2]⟩ false, SendEvent.deliver ⟨none, [3]⟩ true,
           SendEvent.closed] ∧
    (SendOut.mk [(1, ⟨none, [1]⟩), (2, ⟨none, [2]⟩), (3, ⟨none, [3]⟩)]
        [NetworkError.SendError] false).errors
      = (failedDeliveries
          [SendEvent.check false, SendEvent.deliver ⟨none, [1]⟩ true,
           SendEvent.deliver ⟨none, [2]⟩ false, SendEvent.deliver ⟨none, [3]⟩ true,
           SendEvent.closed]).map (fun _ => NetworkError.SendError) :=
  send_loop_order_and_errors
    [SendEvent.check false, SendEvent.deliver ⟨none, [1]⟩ true,
     SendEvent.deliver ⟨none, [2]⟩ false, SendEvent.deliver ⟨none, [3]⟩ true,
     SendEvent.closed]
    ⟨[(1, ⟨none, [1]⟩), (2, ⟨none, [2]⟩), (3, ⟨none, [3]⟩)], [NetworkError.SendError], false⟩
    (by decide) rfl

/-- C4: on a node whose send channel is open, `send(bytes)` enqueues
exactly one packet, destined to the node's peer address with payload
exactly `bytes`, changing nothing else of the world; on a node whose send
channel is closed it fails deterministically (the model of the `expect`
panic), a total outcome — never a hang, never a silent drop. -/
theorem network_node_send_spec (n : NetworkNode) (w : World) (bytes : List Nat)
    (c : Channel NetworkRawPacket)
    (hc : w.packetChannels.get? n.send_message_channel = some c) :
    (c.closed = true → n.send w bytes = none) ∧
    (c.closed = false →
      n.send w bytes = some { w with packetChannels :=
        (w.packetChannels.set n.send_message_channel
          ⟨c.queue ++ [⟨n.peer_addr, bytes⟩], false⟩) }) := by
  constructor
  · intro hcl
    unfold NetworkNode.send
    rw [hc]
    simp [Channel.trySend, hcl]
  · intro hcl
    unfold NetworkNode.send
    rw [hc]
    simp [Channel.trySend, hcl]

/-- C4 witness: a concrete send on an open channel enqueues the one packet
addressed to the peer; the same send on a closed channel fails. -/
theorem network_node_send_spec_witness :
    NetworkNode.send ⟨1, 0, 0, 0, false, none, some ⟨3, 4⟩, 65535, true, NetworkProtocol.TCP⟩
        ⟨[false], [⟨[], false⟩, ⟨[], false⟩], [⟨[], false⟩], 0⟩ [1, 2]
      = some ⟨[false], [⟨[⟨some ⟨3, 4⟩, [1, 2]⟩], false⟩, ⟨[], false⟩], [⟨[], false⟩], 0⟩ ∧
    NetworkNode.send ⟨1, 0, 0, 0, false, none, some ⟨3, 4⟩, 65535, true, NetworkProtocol.TCP⟩
        ⟨[false], [⟨[], true⟩, ⟨[], false⟩], [⟨[], false⟩], 0⟩ [1, 2] = none :=
  ⟨(network_node_send_spec
      ⟨1, 0, 0, 0, false, none, some ⟨3, 4⟩, 65535, true, NetworkProtocol.TCP⟩
      ⟨[false], [⟨[], false⟩, ⟨[], false⟩], [⟨[], false⟩], 0⟩ [1, 2] ⟨[], false⟩ rfl).2 rfl,
   (network_node_send_spec
      ⟨1, 0, 0, 0, false, none, some ⟨3, 4⟩, 65535, true, NetworkProtocol.TCP⟩
      ⟨[false], [⟨[], true⟩, ⟨[], false⟩], [⟨[], false⟩], 0⟩ [1, 2] ⟨[], true⟩ rfl).1 rfl⟩

/-- C9: `start()` sets only `running` on the node and only clears the
node's own cancellation flag in the world; `stop()` sets only `running`
and only sets that flag; all channels, channel contents, the entity
allocator and every other flag are untouched by both. -/
theorem start_stop_frame (n : NetworkNode) (w : World) :
    ((n.start w).1 = { n with running := true } ∧
     (n.start w).2.packetChannels = w.packetChannels ∧
     (n.start w).2.errorChannels = w.errorChannels ∧
     (n.start w).2.nextEntity = w.nextEntity ∧
     (∀ j, j ≠ n.cancel_flag → (n.start w).2.flags.get? j = w.flags.get? j) ∧
     (n.cancel_flag < w.flags.length →
       (n.start w).2.flags.get? n.cancel_flag = some false)) ∧
    ((n.stop w).1 = { n with running := false } ∧
     (n.stop w).2.packetChannels = w.packetChannels ∧
     (n.stop w).2.errorChannels = w.errorChannels ∧
     (n.stop w).2.nextEntity = w.nextEntity ∧
     (∀ j, j ≠ n.cancel_flag → (n.stop w).2.flags.get? j = w.flags.get? j) ∧
     (n.cancel_flag < w.flags.length →
       (n.stop w).2.flags.get? n.cancel_flag = some true)) := by
  refine ⟨⟨rfl, rfl, rfl, rfl, ?_, ?_⟩, rfl, rfl, rfl, rfl, ?_, ?_⟩
  · exact fun j hj => get?_set_ne w.flags n.cancel_flag j false (fun h => hj h.symm)
  · exact fun hlt => get?_set_self w.flags n.cancel_flag false hlt
  · exact fun j hj => get?_set_ne w.flags n.cancel_flag j true (fun h => hj h.symm)
  · exact fun hlt => get?_set_self w.flags n.cancel_flag true hlt

/-- C9 witness: on a node whose flag is slot 0 of a two-flag world, start
clears slot 0 and leaves slot 1 as it was; stop sets slot 0. -/
theorem start_stop_frame_witness :
    ((NetworkNode.start ⟨1, 0, 0, 0, false, none, none, 65535, true, NetworkProtocol.TCP⟩
        ⟨[true, true], [], [], 7⟩).2.flags.get? 1
      = (World.mk [true, true] [] [] 7).flags.get? 1) ∧
    ((NetworkNode.start ⟨1, 0, 0, 0, false, none, none, 65535, true, NetworkProtocol.TCP⟩
        ⟨[true, true], [], [], 7⟩).2.flags.get? 0 = some false) ∧
    ((NetworkNode.stop ⟨1, 0, 0, 0, false, none, none, 65535, true, NetworkProtocol.TCP⟩
        ⟨[true, true], [], [], 7⟩).2.flags.get? 0 = some true) :=
  ⟨(start_stop_frame _ _).1.2.2.2.2.1 1 (by decide),
   (start_stop_frame _ _).1.2.2.2.2.2 (by decide),
   (start_stop_frame _ _).2.2.2.2.2.2 (by decide)⟩

lemma adoptedLoops_eq (net : NetworkNode) :
    ∀ (streams : List TcpStream) (w : World),
      adoptedLoops net w streams = streams.map (fun s =>
        ⟨s, net.recv_message_channel, net.error_channel, net.cancel_flag, 65507⟩) := by
  intro streams
  induction streams with
  | nil => intro w; rfl
  | cons s rest ih =>
    intro w
    simp only [adoptedLoops, handle_new_connection, List.map]
    exact congrArg (List.cons _) (ih _)

lemma adoptedChildren_length (net : NetworkNode) :
    ∀ (streams : List TcpStream) (w : World),
      (adoptedChildren net w streams).length = streams.length := by
  intro streams
  induction streams with
  | nil => intro w; rfl
  | cons s rest ih =>
    intro w
    simp only [adoptedChildren, handle_new_connection, List.length_cons]
    exact congrArg Nat.succ (ih _)

lemma adoptedEvents_eq (net : NetworkNode) :
    ∀ (streams : List TcpStream) (w : World),
      adoptedEvents net w streams =
        (adoptedChildren net w streams).map (fun c => NetworkEvent.Connected c.1) := by
  intro streams
  induction streams with
  | nil => intro w; rfl
  | cons s rest ih =>
    intro w
    simp only [adoptedEvents, adoptedChildren, handle_new_connection, List.map]
    exact congrArg (List.cons _) (ih _)

lemma adoptedChildren_get? (net : NetworkNode) :
    ∀ (streams : List TcpStream) (w : World) (i : Nat),
      (adoptedChildren net w streams).get? i = (streams.get? i).map (adoptedChildAt w i) := by
  intro streams
  induction streams with
  | nil => intro w i; simp [adoptedChildren, handle_new_connection]
  | cons s rest ih =>
    intro w i
    cases i with
    | zero =>
      simp [adoptedChildren, handle_new_connection, adoptedChildAt, NetworkNode.new]
    | succ i =>
      have hfun : ∀ s' : TcpStream,
          adoptedChildAt ⟨w.flags ++ [false],
            w.packetChannels ++ [Channel.new NetworkRawPacket, Channel.new NetworkRawPacket],
            w.errorChannels ++ [Channel.new NetworkError], w.nextEntity + 1⟩ i s'
            = adoptedChildAt w (i + 1) s' := by
        intro s'
        have e1 : w.nextEntity + 1 + i = w.nextEntity + (i + 1) := by omega
        have e2 : w.packetChannels.length + 2 + 2 * i
            = w.packetChannels.length + 2 * (i + 1) := by omega
        have e3 : w.errorChannels.length + 1 + i = w.errorChannels.length + (i + 1) := by omega
        have e4 : w.flags.length + 1 + i = w.flags.length + (i + 1) := by omega
        simp [adoptedChildAt, List.length_append, e1, e2, e3, e4]
      have step := ih ⟨w.flags ++ [false],
        w.packetChannels ++ [Channel.new NetworkRawPacket, Channel.new NetworkRawPacket],
        w.errorChannels ++ [Channel.new NetworkError], w.nextEntity + 1⟩ i
      simp only [adoptedChildren, handle_new_connection, NetworkNode.new, List.get?] at step ⊢
      rw [step]
      cases h' : rest.get? i with
      | none => simp
      | some s' => simp [hfun s']

lemma adoptedWorld_flags (net : NetworkNode) :
    ∀ (streams : List TcpStream) (w : World),
      (adoptedWorld net w streams).flags = w.flags ++ List.replicate streams.length false := by
  intro streams
  induction streams with
  | nil => intro w; simp [adoptedWorld, handle_new_connection]
  | cons s rest ih =>
    intro w
    simp only [adoptedWorld] at ih
    simp only [adoptedWorld, handle_new_connection, NetworkNode.new]
    rw [ih]
    simp [List.replicate_succ]

/-- C1 as stated is false on the code: with a server node whose receive
channel identifier is 5, adopting one accepted connection spawns a receive
loop whose message sender is channel 5 (the server node's receive channel),
not the fresh receive channel of the child node it creates. -/
theorem adoption_claim_counterexample : ¬ClaimC1Prop := by
  intro h
  have h0 := ((h ⟨5, 6, 7, 8, false, none, none, 65535, true, NetworkProtocol.TCP⟩
      ⟨[], [], [], 0⟩ [⟨⟨1, 2⟩, some ⟨3, 4⟩⟩]).2.2.2 0 (by decide)).2.1
  exact absurd h0 (by decide)

/-- C1 amended: for every accepted connection drained by the adoption
step, the step creates exactly one new child node whose peer address
equals the accepted socket's remote address, spawns exactly one receive
loop — delivering packets into the server (parent) node's receive channel,
not the child's — and emits exactly one connected event carrying the child
node's identity. -/
theorem adoption_spec (net : NetworkNode) (w : World) (streams : List TcpStream) :
    (adoptedChildren net w streams).length = streams.length ∧
    (adoptedLoops net w streams).length = streams.length ∧
    (adoptedEvents net w streams).length = streams.length ∧
    ∀ i, i < streams.length →
      ((adoptedChildren net w streams).get? i).map (fun c => c.2.peer_addr)
        = (streams.get? i).map TcpStream.peer_addr ∧
      ((adoptedLoops net w streams).get? i).map SpawnedRecvLoop.message_sender
        = some net.recv_message_channel ∧
      (adoptedEvents net w streams).get? i
        = ((adoptedChildren net w streams).get? i).map (fun c => NetworkEvent.Connected c.1) := by
  refine ⟨adoptedChildren_length net streams w, ?_, ?_, ?_⟩
  · rw [adoptedLoops_eq]
    simp
  · rw [adoptedEvents_eq]
    simp [adoptedChildren_length]
  · intro i hi
    obtain ⟨s, hs⟩ : ∃ s, streams.get? i = some s := by
      cases h' : streams.get? i with
      | none => exact absurd (List.get?_eq_none.mp h') (by omega)
      | some s => exact ⟨s, rfl⟩
    refine ⟨?_, ?_, ?_⟩
    · rw [adoptedChildren_get?, hs]
      simp [adoptedChildAt]
    · rw [adoptedLoops_eq, List.get?_map, hs]
      simp
    · rw [adoptedEvents_eq, List.get?_map]

/-- C1 witness: adopting one connection with remote peer 3:4 on a server
node whose receive channel is 5 yields a child whose peer address is 3:4
and a loop sending into channel 5. -/
theorem adoption_spec_witness :
    ((adoptedChildren ⟨5, 6, 7, 8, false, none, none, 65535, true, NetworkProtocol.TCP⟩
        ⟨[], [], [], 0⟩ [⟨⟨1, 2⟩, some ⟨3, 4⟩⟩]).get? 0).map (fun c => c.2.peer_addr)
      = (([⟨⟨1, 2⟩, some ⟨3, 4⟩⟩] : List TcpStream).get? 0).map TcpStream.peer_addr ∧
    ((adoptedLoops ⟨5, 6, 7, 8, false, none, none, 65535, true, NetworkProtocol.TCP⟩
        ⟨[], [], [], 0⟩ [⟨⟨1, 2⟩, some ⟨3, 4⟩⟩]).get? 0).map SpawnedRecvLoop.message_sender
      = some 5 :=
  ⟨((adoption_spec ⟨5, 6, 7, 8, false, none, none, 65535, true, NetworkProtocol.TCP⟩
      ⟨[], [], [], 0⟩ [⟨⟨1, 2⟩, some ⟨3, 4⟩⟩]).2.2.2 0 (by decide)).1,
   ((adoption_spec ⟨5, 6, 7, 8, false, none, none, 65535, true, NetworkProtocol.TCP⟩
      ⟨[], [], [], 0⟩ [⟨⟨1, 2⟩, some ⟨3, 4⟩⟩]).2.2.2 0 (by decide)).2.1⟩

/-- C10: every receive loop spawned by the adoption step is given the
server node's cancellation flag, receive-channel sender and error-channel
sender — never the child's, whose freshly allocated channels and flag
differ from every identifier the loops use — so stopping the server node
sets the very flag each adopted loop checks, and a receive loop that
observes a set flag exits at once with no packet and no error. -/
theorem adoption_loops_use_server_node (net : NetworkNode) (w : World)
    (streams : List TcpStream)
    (hrecv : net.recv_message_channel < w.packetChannels.length)
    (herr : net.error_channel < w.errorChannels.length)
    (hflag : net.cancel_flag < w.flags.length) :
    ∀ (i : Nat) (L : SpawnedRecvLoop),
      (adoptedLoops net w streams).get? i = some L →
      (L.cancel_flag = net.cancel_flag ∧
       L.message_sender = net.recv_message_channel ∧
       L.error_sender = net.error_channel) ∧
      (∀ (j : Nat) (c : Nat × NetworkNode),
        (adoptedChildren net w streams).get? j = some c →
        c.2.cancel_flag ≠ L.cancel_flag ∧
        c.2.recv_message_channel ≠ L.message_sender ∧
        c.2.send_message_channel ≠ L.message_sender ∧
        c.2.error_channel ≠ L.error_sender) ∧
      (NetworkNode.stop net (adoptedWorld net w streams)).2.readFlag L.cancel_flag = true ∧
      (∀ (r : ReadResult) (t : List (Bool × ReadResult)),
        recv_loop L.stream L.max_packet_size ((true, r) :: t) = ⟨[], [], RecvExit.cancelled⟩) := by
  intro i L hL
  rw [adoptedLoops_eq, List.get?_map] at hL
  obtain ⟨s, _, hLs⟩ := Option.map_eq_some'.mp hL
  have hflagL : L.cancel_flag = net.cancel_flag := by rw [← hLs]
  have hmsgL : L.message_sender = net.recv_message_channel := by rw [← hLs]
  have herrL : L.error_sender = net.error_channel := by rw [← hLs]
  refine ⟨⟨hflagL, hmsgL, herrL⟩, ?_, ?_, ?_⟩
  · intro j c hc
    rw [adoptedChildren_get?] at hc
    obtain ⟨s', _, hcs⟩ := Option.map_eq_some'.mp hc
    rw [← hcs]
    refine ⟨?_, ?_, ?_, ?_⟩
    · show w.flags.length + j ≠ L.cancel_flag
      rw [hflagL]
      omega
    · show w.packetChannels.length + 2 * j ≠ L.message_sender
      rw [hmsgL]
      omega
    · show w.packetChannels.length + 2 * j + 1 ≠ L.message_sender
      rw [hmsgL]
      omega
    · show w.errorChannels.length + j ≠ L.error_sender
      rw [herrL]
      omega
  · rw [hflagL]
    show ((adoptedWorld net w streams).writeFlag net.cancel_flag true).readFlag
      net.cancel_flag = true
    unfold World.readFlag World.writeFlag
    apply getD_set_self
    rw [adoptedWorld_flags]
    simp only [List.length_append]
    exact Nat.lt_of_lt_of_le hflag (Nat.le_add_right _ _)
  · intro r t
    simp [recv_loop]

/-- C10 witness: with one adopted connection on a server node whose flag,
receive channel and error channel are all slot 0, the spawned loop's
endpoints are all slot 0 and stopping the server makes the loop's flag
read true. -/
theorem adoption_loops_use_server_node_witness :
    ((adoptedLoops ⟨0, 1, 0, 0, false, none, none, 65535, true, NetworkProtocol.TCP⟩
        ⟨[false], [Channel.new NetworkRawPacket, Channel.new NetworkRawPacket],
         [Channel.new NetworkError], 0⟩ [⟨⟨1, 2⟩, some ⟨3, 4⟩⟩]).get? 0
      = some ⟨⟨⟨1, 2⟩, some ⟨3, 4⟩⟩, 0, 0, 0, 65507⟩) ∧
    (NetworkNode.stop ⟨0, 1, 0, 0, false, none, none, 65535, true, NetworkProtocol.TCP⟩
        (adoptedWorld ⟨0, 1, 0, 0, false, none, none, 65535, true, NetworkProtocol.TCP⟩
          ⟨[false], [Channel.new NetworkRawPacket, Channel.new NetworkRawPacket],
           [Channel.new NetworkError], 0⟩ [⟨⟨1, 2⟩, some ⟨3, 4⟩⟩])).2.readFlag 0 = true :=
  ⟨by decide,
   ((adoption_loops_use_server_node ⟨0, 1, 0, 0, false, none, none, 65535, true, NetworkProtocol.TCP⟩
      ⟨[false], [Channel.new NetworkRawPacket, Channel.new NetworkRawPacket],
       [Channel.new NetworkError], 0⟩ [⟨⟨1, 2⟩, some ⟨3, 4⟩⟩]
      (by decide) (by decide) (by decide)) 0 ⟨⟨⟨1, 2⟩, some ⟨3, 4⟩⟩, 0, 0, 0, 65507⟩
      (by decide)).2.2.1⟩
